import Mathlib

/-!
Verification development for the dotloop-python client library.

The definitions below are a shallow embedding of the Python source:

* `NodeData` / chains of `NodeData` model `DotloopObject` instances and
  their parent chains (`src/dotloop/bases.py`).  A chain lists the node
  itself first, then its parent, and so on up to the root.
* `collectIds` models `DotloopObject.collect_ids`.
* `callNode` models `DotloopObject.__call__` (identifier binding).
* `endpointItems` / `endpointGet` model `EndpointDirectory._items` and
  `EndpointDirectory.__getitem__`.
* `formatTemplate` models Python `str.format` applied to the URL
  templates (raising `KeyError` on an unresolved placeholder).
* `dotloopFetch` models `DotloopObject.fetch`, with the HTTP transport
  given as an oracle; the run records how many transport calls and how
  many token-refresh calls were made.
* `profileGetAll`, `taskGetAll`, `loopGetUpdatedSince` model the
  pagination generators in `profile.py`, `task.py` and `loop.py`.
-/

/-- One `DotloopObject` instance: its class name, its class-level
`ID_FIELD` (copied onto the instance by `__init__`), its `_id_value`,
and an identity tag for the `requests.Session` object stored in
`_session`. -/
structure NodeData where
  className : String
  idField : Option String
  idValue : Option String
  session : Nat
deriving DecidableEq, Repr

/-- Python truthiness for the optional strings tested by
`current.ID_FIELD and current.id_value`: `None` and the empty string
are falsy. -/
def truthy : Option String → Option String
  | none => none
  | some s => if s = "" then none else some s

/-- The (field, value) pair a node contributes to `collect_ids`, when
both `ID_FIELD` and `id_value` are truthy. -/
def boundField (n : NodeData) : Option (String × String) :=
  match truthy n.idField, truthy n.idValue with
  | some f, some v => some (f, v)
  | _, _ => none

/-- Lookup in an association list, first match; models `d[k]` on a
Python dict represented by its item list. -/
def dictLookup : List (String × String) → String → Option String
  | [], _ => none
  | p :: rest, k => if p.1 = k then some p.2 else dictLookup rest k

/-- Python dict assignment `d[k] = v` on the item-list representation:
replace the value of the (first) pair holding the key, keeping its
position, otherwise append the new pair.  The item lists this is
applied to always have pairwise-distinct keys (an invariant this
operation maintains), so first-occurrence replacement coincides with
Python dict assignment. -/
def dictInsert : List (String × String) → String → String → List (String × String)
  | [], k, v => [(k, v)]
  | p :: rest, k, v => if p.1 = k then (k, v) :: rest else p :: dictInsert rest k v

/-- The loop body of `DotloopObject.collect_ids`: starting from an
accumulated dict, walk the chain (self first, root last); every node
with truthy `ID_FIELD` and `id_value` executes
`ids[current.ID_FIELD] = current.id_value`. -/
def collectIdsAux (acc : List (String × String)) :
    List NodeData → List (String × String)
  | [] => acc
  | n :: rest =>
    collectIdsAux
      (match boundField n with
        | some (f, v) => dictInsert acc f v
        | none => acc)
      rest

/-- `DotloopObject.collect_ids` on the chain `self :: ancestors`. -/
def collectIds (chain : List NodeData) : List (String × String) :=
  collectIdsAux [] chain

/-- The (field, value) pairs bound along a chain, in walk order
(self first). -/
def boundPairs (chain : List NodeData) : List (String × String) :=
  chain.filterMap boundField

/-- Declarative description of which value `collect_ids` ends up
holding for a field name: the value of the LAST node on the walk from
self to the root that binds that name (dict assignment overwrites, so
the occurrence nearest the root wins). -/
def lastWins (chain : List NodeData) (k : String) : Option String :=
  dictLookup (boundPairs chain).reverse k

/-- Description of the value the spec prescribes for `collect_ids`:
the FIRST occurrence on the walk from self (the node nearest to self)
wins. -/
def firstWins (chain : List NodeData) (k : String) : Option String :=
  dictLookup (boundPairs chain) k

/-- `DotloopObject.__init__` run with a given parent chain: `ID_FIELD`
is read from the class, `_id_value` is `None`, and `_session` is
`getattr(parent, "_session", requests.Session())` — the parent's
session when there is a parent, a fresh session otherwise. -/
def initNodeData (cls : String) (clsIdField : Option String)
    (ancestors : List NodeData) (fresh : Nat) : NodeData :=
  { className := cls
    idField := clsIdField
    idValue := none
    session := match ancestors with
      | parent :: _ => parent.session
      | [] => fresh }

/-- `DotloopObject.__call__(id_value)` on the node `self` whose parent
chain is `ancestors`: `new_obj = self.__class__(parent=self._parent)`
followed by `new_obj._id_value = id_value`.  The result pairs the state
of the original node after the call (the body assigns nothing to
`self`, so it is returned unchanged) with the new node; both share the
original's ancestor chain. -/
def callNode (self : NodeData) (ancestors : List NodeData) (idv : String)
    (fresh : Nat) :
    (NodeData × List NodeData) × (NodeData × List NodeData) :=
  let newObj : NodeData :=
    { initNodeData self.className self.idField ancestors fresh with
      idValue := some idv }
  ((self, ancestors), (newObj, ancestors))

-- Endpoint registry (src/dotloop/bases.py, `EndpointDirectory`)

/-- One piece of a URL template string: literal text, or a
format placeholder written in the source between braces. -/
inductive TSeg where
  | lit (s : String)
  | hole (name : String)
deriving DecidableEq, Repr

/-- One row of `EndpointDirectory._items`: the sentinel third component
`None` / `NotNone` of the source is rendered as `requiresId = false` /
`true`, since `__getitem__` matches it exactly against
`id_value is not None`. -/
structure Endpoint where
  cls : String
  verb : String
  requiresId : Bool
  template : List TSeg
deriving DecidableEq, Repr

/-- The full `EndpointDirectory._items` table, rows in source order. -/
def endpointItems : List Endpoint := [
  ⟨"LoopIt", "post", false, [.lit "loop-it"]⟩,
  ⟨"Account", "get", false, [.lit "account"]⟩,
  ⟨"Profile", "get", false, [.lit "profile"]⟩,
  ⟨"Profile", "get", true, [.lit "profile/", .hole "profile_id"]⟩,
  ⟨"Profile", "post", false, [.lit "profile"]⟩,
  ⟨"Profile", "patch", true, [.lit "profile/", .hole "profile_id"]⟩,
  ⟨"Loop", "get", false, [.lit "profile/", .hole "profile_id", .lit "/loop"]⟩,
  ⟨"Loop", "get", true,
    [.lit "profile/", .hole "profile_id", .lit "/loop/", .hole "loop_id"]⟩,
  ⟨"Loop", "post", false, [.lit "profile/", .hole "profile_id", .lit "/loop"]⟩,
  ⟨"Loop", "patch", true,
    [.lit "profile/", .hole "profile_id", .lit "/loop/", .hole "loop_id"]⟩,
  ⟨"Detail", "get", false,
    [.lit "profile/", .hole "profile_id", .lit "/loop/", .hole "loop_id",
     .lit "/detail"]⟩,
  ⟨"Detail", "patch", false,
    [.lit "profile/", .hole "profile_id", .lit "/loop/", .hole "loop_id",
     .lit "/detail"]⟩,
  ⟨"Folder", "get", false,
    [.lit "profile/", .hole "profile_id", .lit "/loop/", .hole "loop_id",
     .lit "/folder"]⟩,
  ⟨"Folder", "get", true,
    [.lit "profile/", .hole "profile_id", .lit "/loop/", .hole "loop_id",
     .lit "/folder/", .hole "folder_id"]⟩,
  ⟨"Folder", "patch", true,
    [.lit "profile/", .hole "profile_id", .lit "/loop/", .hole "loop_id",
     .lit "/folder/", .hole "folder_id"]⟩,
  ⟨"Document", "get", false,
    [.lit "profile/", .hole "profile_id", .lit "/loop/", .hole "loop_id",
     .lit "/folder/", .hole "folder_id", .lit "/document"]⟩,
  ⟨"Document", "get", true,
    [.lit "profile/", .hole "profile_id", .lit "/loop/", .hole "loop_id",
     .lit "/folder/", .hole "folder_id", .lit "/document/", .hole "document_id"]⟩,
  ⟨"Document", "post", false,
    [.lit "profile/", .hole "profile_id", .lit "/loop/", .hole "loop_id",
     .lit "/folder/", .hole "folder_id", .lit "/document"]⟩,
  ⟨"Participant", "get", false,
    [.lit "profile/", .hole "profile_id", .lit "/loop/", .hole "loop_id",
     .lit "/participant"]⟩,
  ⟨"Participant", "get", true,
    [.lit "profile/", .hole "profile_id", .lit "/loop/", .hole "loop_id",
     .lit "/participant/", .hole "participant_id"]⟩,
  ⟨"Participant", "post", false,
    [.lit "profile/", .hole "profile_id", .lit "/loop/", .hole "loop_id",
     .lit "/participant"]⟩,
  ⟨"Participant", "patch", true,
    [.lit "profile/", .hole "profile_id", .lit "/loop/", .hole "loop_id",
     .lit "/participant/", .hole "participant_id"]⟩,
  ⟨"Participant", "delete", true,
    [.lit "profile/", .hole "profile_id", .lit "/loop/", .hole "loop_id",
     .lit "/participant/", .hole "participant_id"]⟩,
  ⟨"TaskList", "get", false,
    [.lit "profile/", .hole "profile_id", .lit "/loop/", .hole "loop_id",
     .lit "/tasklist"]⟩,
  ⟨"TaskList", "get", true,
    [.lit "profile/", .hole "profile_id", .lit "/loop/", .hole "loop_id",
     .lit "/tasklist/", .hole "task_list_id"]⟩,
  ⟨"Task", "get", false,
    [.lit "profile/", .hole "profile_id", .lit "/loop/", .hole "loop_id",
     .lit "/tasklist/", .hole "task_list_id", .lit "/task"]⟩,
  ⟨"Task", "get", true,
    [.lit "profile/", .hole "profile_id", .lit "/loop/", .hole "loop_id",
     .lit "/tasklist/", .hole "task_list_id", .lit "/task/", .hole "task_id"]⟩,
  ⟨"Activity", "get", false,
    [.lit "profile/", .hole "profile_id", .lit "/loop/", .hole "loop_id",
     .lit "/activity"]⟩,
  ⟨"Contact", "get", false, [.lit "contact"]⟩,
  ⟨"Contact", "get", true, [.lit "contact/", .hole "contact_id"]⟩,
  ⟨"Contact", "post", false, [.lit "contact"]⟩,
  ⟨"Contact", "patch", true, [.lit "contact/", .hole "contact_id"]⟩,
  ⟨"Contact", "delete", true, [.lit "contact/", .hole "contact_id"]⟩,
  ⟨"LoopTemplate", "get", false,
    [.lit "profile/", .hole "profile_id", .lit "/loop-template"]⟩,
  ⟨"LoopTemplate", "get", true,
    [.lit "profile/", .hole "profile_id", .lit "/loop-template/",
     .hole "loop_template_id"]⟩]

/-- Python `repr` of a bool, as interpolated into the KeyError text. -/
def pyBool : Bool → String
  | true => "True"
  | false => "False"

/-- The message of the `KeyError` raised by
`EndpointDirectory.__getitem__` when no row matches. -/
def noEndpointMsg (cls verb : String) (hasId : Bool) : String :=
  "No endpoint found for " ++ cls ++ ", " ++ verb ++ ", has_id=" ++ pyBool hasId

/-- `EndpointDirectory.__getitem__((class_name, method, has_id))`:
first row matching the class name, the method, and whose sentinel
agrees with `has_id`; `none` models the raised `KeyError`. -/
def endpointGet (cls verb : String) (hasId : Bool) : Option (List TSeg) :=
  (endpointItems.find?
    (fun e => e.cls == cls && e.verb == verb && e.requiresId == hasId)).map
    (·.template)

/-- Python `endpoint.format(**format_dict)` on a segmented template:
substitutes every placeholder from the dict; a placeholder whose name
is missing raises `KeyError(name)`, modeled as `Except.error name`. -/
def formatTemplate : List TSeg → List (String × String) → Except String String
  | [], _ => .ok ""
  | .lit s :: rest, ids => (formatTemplate rest ids).map (fun t => s ++ t)
  | .hole n :: rest, ids =>
    match dictLookup ids n with
    | none => .error n
    | some v => (formatTemplate rest ids).map (fun t => v ++ t)

-- Request dispatch (src/dotloop/bases.py, `DotloopObject.fetch`)

/-- `DotloopObject.BASE_URL`. -/
def baseUrl : String := "https://api-gateway.dotloop.com/public/v2/"

/-- `urljoin(BASE_URL, endpoint)`: the base ends in a slash and every
registry endpoint is a relative path, so the join is concatenation. -/
def urljoinV2 (base rel : String) : String := base ++ rel

/-- `DotloopObject.ALLOWED_METHODS`. -/
def allowedMethods : List String := ["delete", "get", "patch", "post"]

/-- Outcome of one call on the `requests` session: a raised
`requests.RequestException` (connection error etc., with the status of
`e.response` when it has one), or a response with a status code, a
body, and the result of attempting `response.json()` on it
(`Except.error` holds `str(e)` of the `JSONDecodeError`). -/
inductive HttpOutcome where
  | exn (msg : String) (status : Option Nat)
  | resp (status : Nat) (content : String) (parsed : Except String String)
deriving Repr

/-- Stand-in for `str(e)` of the `requests.HTTPError` raised by
`response.raise_for_status()`; the exact text is produced inside the
requests library. -/
def httpErrorMessage (status : Nat) (url : String) : String :=
  toString status ++ " Error for url: " ++ url

/-- The dict `fetch` returns: a parsed JSON body on success, or the
normalized error dict built in the two `except` arms. -/
inductive FetchResult where
  | success (data : String)
  | errorDict (error : String) (message : String) (status : Option Nat)
deriving DecidableEq, Repr

/-- How a call to `fetch` ends: a returned dict, or one of the
exceptions it deliberately lets escape (`KeyError` from the registry
lookup, `KeyError` from `endpoint.format`, `ValueError` for a method
outside `ALLOWED_METHODS`). -/
inductive FetchOutcome where
  | ok (r : FetchResult)
  | keyError (msg : String)
  | formatKeyError (name : String)
  | valueError (method : String)
deriving DecidableEq, Repr

/-- One run of `DotloopObject.fetch`: its outcome plus how many calls
it made on the HTTP session and how many token refreshes it performed. -/
structure FetchRun where
  outcome : FetchOutcome
  httpCalls : Nat
  refreshCalls : Nat
deriving DecidableEq, Repr

/-- `DotloopObject.fetch(method, **kwargs)` on the node `self` with
parent chain `ancestors`; `transport` is an oracle giving the outcome
of each successive session call.  In source order: registry lookup
(re-raising `KeyError`), `collect_ids`, `endpoint.format` (re-raising
`KeyError`), `urljoin`, the `ALLOWED_METHODS` check, then the single
session call whose `RequestException` and `JSONDecodeError` are
converted to error dicts.  The body contains no token refresh and no
retry. -/
def dotloopFetch (self : NodeData) (ancestors : List NodeData)
    (method : String) (transport : Nat → HttpOutcome) : FetchRun :=
  match endpointGet self.className method self.idValue.isSome with
  | none =>
    ⟨.keyError (noEndpointMsg self.className method self.idValue.isSome), 0, 0⟩
  | some tmpl =>
    match formatTemplate tmpl (collectIds (self :: ancestors)) with
    | .error name => ⟨.formatKeyError name, 0, 0⟩
    | .ok endpoint =>
      let url := urljoinV2 baseUrl endpoint
      if allowedMethods.contains method then
        match transport 0 with
        | .exn msg st? => ⟨.ok (.errorDict "RequestException" msg st?), 1, 0⟩
        | .resp status content parsed =>
          if 400 ≤ status ∧ status < 600 then
            ⟨.ok (.errorDict "RequestException" (httpErrorMessage status url)
              (some status)), 1, 0⟩
          else
            match parsed with
            | .ok data => ⟨.ok (.success data), 1, 0⟩
            | .error e =>
              ⟨.ok (.errorDict "JSONDecodeError" (e ++ ": " ++ content)
                (some status)), 1, 0⟩
      else ⟨.valueError method, 0, 0⟩

/-- `Folder.post(**kwargs)` (src/dotloop/folder.py): delegates to
`self.fetch('post', json=kwargs)`; the request body plays no part in
routing, so it is not modeled. -/
def folderPost (self : NodeData) (ancestors : List NodeData)
    (transport : Nat → HttpOutcome) : FetchRun :=
  dotloopFetch self ancestors "post" transport

-- Pagination generators

/-- One page response as the generators read it: `data` is the item
list (`response.get('data', [])`), `total` is `meta.total`
(`response.get('meta', {}).get('total')`), absent when `none`. -/
structure Page where
  data : List String
  total : Option Nat
deriving DecidableEq, Repr

/-- The `while total is None or fetched < total` guard shared by the
pagination loops. -/
def pageCond (total? : Option Nat) (fetched : Nat) : Bool :=
  match total? with
  | none => true
  | some t => decide (fetched < t)

/-- The loop of `Profile.get_all` (src/dotloop/profile.py): the
transport is a script of page responses consumed one per request; the
result is `some (yielded items, issued requests)`, each request
recorded as `(batch_number, batch_size sent)`, or `none` when the
script is shorter than the run (the loop would request a page the
script does not cover). -/
def profileGetAllAux (batchSize : Nat) :
    Option Nat → Nat → Nat → List Page →
    Option (List String × List (Nat × Nat))
  | total?, fetched, _, [] =>
    if pageCond total? fetched then none else some ([], [])
  | total?, fetched, batchNumber, p :: rest =>
    if pageCond total? fetched then
      let req := (batchNumber, min batchSize 100)
      let total2 := match total? with
        | none => p.total
        | some t => some t
      if p.data.length < batchSize then
        some (p.data, [req])
      else
        match profileGetAllAux batchSize total2 (fetched + p.data.length)
            (batchNumber + 1) rest with
        | none => none
        | some (items, reqs) => some (p.data ++ items, req :: reqs)
    else some ([], [])

/-- `Profile.get_all(batch_size)` run against a page script:
`batch_number` starts at 1, no total captured yet, nothing fetched. -/
def profileGetAll (batchSize : Nat) (pages : List Page) :
    Option (List String × List (Nat × Nat)) :=
  profileGetAllAux batchSize none 0 1 pages

/-- The loop of `Task.get_all` (src/dotloop/task.py); its body is the
same pagination pattern as `Profile.get_all`. -/
def taskGetAllAux (batchSize : Nat) :
    Option Nat → Nat → Nat → List Page →
    Option (List String × List (Nat × Nat))
  | total?, fetched, _, [] =>
    if pageCond total? fetched then none else some ([], [])
  | total?, fetched, batchNumber, p :: rest =>
    if pageCond total? fetched then
      let req := (batchNumber, min batchSize 100)
      let total2 := match total? with
        | none => p.total
        | some t => some t
      if p.data.length < batchSize then
        some (p.data, [req])
      else
        match taskGetAllAux batchSize total2 (fetched + p.data.length)
            (batchNumber + 1) rest with
        | none => none
        | some (items, reqs) => some (p.data ++ items, req :: reqs)
    else some ([], [])

/-- `Task.get_all(batch_size)` run against a page script. -/
def taskGetAll (batchSize : Nat) (pages : List Page) :
    Option (List String × List (Nat × Nat)) :=
  taskGetAllAux batchSize none 0 1 pages

/-- The params dict built on every iteration of
`Loop.get_updated_since`: clamped batch size, batch number, and the
`updated_min` filter string. -/
structure LoopPageReq where
  batchSize : Nat
  batchNumber : Nat
  filter : String
deriving DecidableEq, Repr

/-- The loop of `Loop.get_updated_since` (src/dotloop/loop.py):
`formatted_date` is the `strftime` rendering of the `date` argument;
the per-item comparison of `loop.get('updated')` with the filter date
only emits a log warning, so it does not affect the yielded items. -/
def loopGetUpdatedSinceAux (batchSize : Nat) (filterParam : String) :
    Option Nat → Nat → Nat → List Page →
    Option (List String × List LoopPageReq)
  | total?, fetched, _, [] =>
    if pageCond total? fetched then none else some ([], [])
  | total?, fetched, batchNumber, p :: rest =>
    if pageCond total? fetched then
      let req : LoopPageReq := ⟨min batchSize 100, batchNumber, filterParam⟩
      let total2 := match total? with
        | none => p.total
        | some t => some t
      if p.data.length < batchSize then
        some (p.data, [req])
      else
        match loopGetUpdatedSinceAux batchSize filterParam total2
            (fetched + p.data.length) (batchNumber + 1) rest with
        | none => none
        | some (items, reqs) => some (p.data ++ items, req :: reqs)
    else some ([], [])

/-- `Loop.get_updated_since(date, batch_size)` run against a page
script, with `formattedDate` standing for `date.strftime(...)`. -/
def loopGetUpdatedSince (formattedDate : String) (batchSize : Nat)
    (pages : List Page) : Option (List String × List LoopPageReq) :=
  loopGetUpdatedSinceAux batchSize ("updated_min=" ++ formattedDate) none 0 1 pages

-- Concrete nodes and transports used in witnesses and counterexamples

/-- The root `Client` node: `Client` declares no `ID_FIELD`
(src/dotloop/client.py). -/
def clientNode : NodeData := ⟨"Client", none, none, 0⟩

/-- A `Profile` node (`ID_FIELD = 'profile_id'`, src/dotloop/profile.py). -/
def profileNode (idv : Option String) : NodeData :=
  ⟨"Profile", some "profile_id", idv, 0⟩

/-- A `Loop` node (`ID_FIELD = 'loop_id'`, src/dotloop/loop.py). -/
def loopNode (idv : Option String) : NodeData :=
  ⟨"Loop", some "loop_id", idv, 0⟩

/-- A `Folder` node (`ID_FIELD = 'folder_id'`, src/dotloop/folder.py). -/
def folderNode (idv : Option String) : NodeData :=
  ⟨"Folder", some "folder_id", idv, 0⟩

/-- A `Document` node (`ID_FIELD = 'document_id'`, src/dotloop/document.py). -/
def documentNode (idv : Option String) : NodeData :=
  ⟨"Document", some "document_id", idv, 0⟩

/-- A `Detail` node: `Detail.ID_FIELD = None` (src/dotloop/detail.py). -/
def detailNode : NodeData := ⟨"Detail", none, none, 0⟩

/-- An `Account` node: `Account` declares no `ID_FIELD`
(src/dotloop/account.py). -/
def accountNode : NodeData := ⟨"Account", none, none, 0⟩

/-- A transport whose first call yields a 401 whose body is not JSON,
and every later call a 200 with parsed body "fresh-data". -/
def t401then200 : Nat → HttpOutcome := fun n =>
  if n = 0 then .resp 401 "unauthorized" (.error "Expecting value")
  else .resp 200 "ok-body" (.ok "fresh-data")

/-- The request list a pagination run is expected to issue: `n + 1`
requests with consecutive batch numbers starting at `b`, each sending
batch size `m`. -/
def expectedReqs (b m : Nat) : Nat → List (Nat × Nat)
  | 0 => [(b, m)]
  | n + 1 => (b, m) :: expectedReqs (b + 1) m n

-- Dict lemmas

theorem dictLookup_dictInsert (d : List (String × String)) (k v q : String) :
    dictLookup (dictInsert d k v) q =
      if q = k then some v else dictLookup d q := by
  induction d with
  | nil =>
    by_cases h : q = k
    · simp [dictInsert, dictLookup, h]
    · simp [dictInsert, dictLookup, h, Ne.symm h]
  | cons p rest ih =>
    by_cases hpk : p.1 = k
    · by_cases hq : q = k
      · simp [dictInsert, dictLookup, hpk, hq]
      · have hkq : ¬ k = q := fun hh => hq hh.symm
        have hpq : ¬ p.1 = q := by rw [hpk]; exact hkq
        simp [dictInsert, dictLookup, hpk, hq, hkq, hpq]
    · by_cases hpq : p.1 = q
      · have hq : ¬ q = k := fun h => hpk (hpq.trans h)
        simp [dictInsert, dictLookup, hpk, hpq, hq]
      · simp [dictInsert, dictLookup, hpk, hpq, ih]

theorem mem_keys_dictInsert (d : List (String × String)) (k v q : String) :
    q ∈ (dictInsert d k v).map Prod.fst ↔ q ∈ d.map Prod.fst ∨ q = k := by
  induction d with
  | nil => simp [dictInsert]
  | cons p rest ih =>
    by_cases hpk : p.1 = k
    · subst hpk
      simp [dictInsert]
      tauto
    · simp [dictInsert, hpk, ih]
      tauto

theorem nodup_keys_dictInsert (d : List (String × String)) (k v : String)
    (h : (d.map Prod.fst).Nodup) : ((dictInsert d k v).map Prod.fst).Nodup := by
  induction d with
  | nil => simp [dictInsert]
  | cons p rest ih =>
    simp only [List.map_cons, List.nodup_cons] at h
    by_cases hpk : p.1 = k
    · subst hpk
      simpa [dictInsert] using h
    · simp only [dictInsert, hpk, if_false, List.map_cons, List.nodup_cons]
      refine ⟨fun hmem => ?_, ih h.2⟩
      rcases (mem_keys_dictInsert rest k v p.1).mp hmem with h1 | h1
      · exact h.1 h1
      · exact hpk h1

theorem dictLookup_append (a b : List (String × String)) (k : String) :
    dictLookup (a ++ b) k =
      match dictLookup a k with
      | some v => some v
      | none => dictLookup b k := by
  induction a with
  | nil => simp [dictLookup]
  | cons p rest ih =>
    by_cases hpk : p.1 = k <;> simp [dictLookup, hpk, ih]

theorem dictLookup_collectIdsAux (chain : List NodeData) :
    ∀ (acc : List (String × String)) (k : String),
      dictLookup (collectIdsAux acc chain) k =
        match lastWins chain k with
        | some v => some v
        | none => dictLookup acc k := by
  induction chain with
  | nil => intro acc k; simp [collectIdsAux, lastWins, boundPairs, dictLookup]
  | cons n rest ih =>
    intro acc k
    have hlw : lastWins (n :: rest) k =
        match lastWins rest k with
        | some v => some v
        | none =>
          match boundField n with
          | some (f, v) => if f = k then some v else none
          | none => none := by
      unfold lastWins boundPairs
      rw [List.filterMap_cons]
      cases hb : boundField n with
      | none =>
        simp only [hb]
        cases hrest : dictLookup (List.filterMap boundField rest).reverse k <;>
          simp [hrest]
      | some p =>
        rcases p with ⟨f, v⟩
        simp only [hb, List.reverse_cons, dictLookup_append]
        cases hrest : dictLookup (List.filterMap boundField rest).reverse k <;>
          simp [dictLookup, hrest]
    rw [hlw]
    simp only [collectIdsAux]
    cases hb : boundField n with
    | none =>
      simp only [hb]
      rw [ih]
      cases hrest : lastWins rest k <;> simp [hrest]
    | some p =>
      rcases p with ⟨f, v⟩
      simp only [hb]
      rw [ih]
      cases hrest : lastWins rest k with
      | some w => simp [hrest]
      | none =>
        simp only [hrest]
        rw [dictLookup_dictInsert]
        by_cases hfk : f = k
        · simp [hfk]
        · have hkf : ¬ k = f := fun h => hfk h.symm
          simp [hfk, hkf]

theorem dictLookup_collectIds (chain : List NodeData) (k : String) :
    dictLookup (collectIds chain) k = lastWins chain k := by
  rw [collectIds, dictLookup_collectIdsAux]
  cases h : lastWins chain k <;> simp [dictLookup]

theorem nodup_keys_collectIdsAux (chain : List NodeData) :
    ∀ acc : List (String × String), (acc.map Prod.fst).Nodup →
      ((collectIdsAux acc chain).map Prod.fst).Nodup := by
  induction chain with
  | nil => intro acc h; simpa [collectIdsAux] using h
  | cons n rest ih =>
    intro acc h
    rw [collectIdsAux]
    cases hb : boundField n with
    | none => simpa [hb] using ih acc h
    | some p =>
      rcases p with ⟨f, v⟩
      simpa [hb] using ih _ (nodup_keys_dictInsert acc f v h)

theorem nodup_keys_collectIds (chain : List NodeData) :
    ((collectIds chain).map Prod.fst).Nodup :=
  nodup_keys_collectIdsAux chain [] (by simp)


theorem boundField_of_idField_none (n : NodeData) (h : n.idField = none) :
    boundField n = none := by
  unfold boundField
  rw [h]
  show (match truthy none, truthy n.idValue with
    | some f, some v => some (f, v)
    | _, _ => none) = none
  cases truthy n.idValue <;> rfl

-- Claim theorems

/-- C1 (counterexample): on a chain of two nodes that both bind the
field name `profile_id` — the node nearer the start binding "near",
its parent binding "far" — `collect_ids` keeps "far", the value from
the node nearer the ROOT, not the first occurrence "near" that the
claim prescribes (`firstWins` is the claim's nearest-wins reading). -/
theorem collectIds_nearest_wins_cex :
    collectIds [profileNode (some "near"), profileNode (some "far"), clientNode] =
      [("profile_id", "far")] ∧
    firstWins [profileNode (some "near"), profileNode (some "far"), clientNode]
      "profile_id" = some "near" := by
  exact ⟨rfl, rfl⟩

/-- C1 (amended): `collect_ids` returns a mapping with exactly one
entry per distinct identifier field name bound on the path from the
node to the root (keys are pairwise distinct, and a name maps to a
value exactly when some node on the path binds it); when two nodes on
the path share a field name, the value kept is the one from the node
nearer the ROOT (the last occurrence on the walk from self wins, since
dict assignment overwrites); on a fully bound 4-deep
profile→loop→folder→document chain it returns exactly the 4 expected
entries. -/
theorem collectIds_root_most_wins (chain : List NodeData) (k : String) :
    dictLookup (collectIds chain) k = lastWins chain k ∧
    ((collectIds chain).map Prod.fst).Nodup ∧
    collectIds [documentNode (some "d1"), folderNode (some "f1"),
        loopNode (some "l1"), profileNode (some "p1"), clientNode] =
      [("document_id", "d1"), ("folder_id", "f1"), ("loop_id", "l1"),
       ("profile_id", "p1")] :=
  ⟨dictLookup_collectIds chain k, nodup_keys_collectIds chain, rfl⟩

/-- C3: binding an identifier via `__call__` returns a new node of the
same class, with the same parent chain, with the bound identifier set
(and the class's identifier field name), and leaves the node it was
called on — and its ancestor chain — unchanged. -/
theorem callNode_pure_bind (self : NodeData) (anc : List NodeData)
    (idv : String) (fresh : Nat) :
    (callNode self anc idv fresh).1 = (self, anc) ∧
    (callNode self anc idv fresh).2.1.className = self.className ∧
    (callNode self anc idv fresh).2.1.idField = self.idField ∧
    (callNode self anc idv fresh).2.1.idValue = some idv ∧
    (callNode self anc idv fresh).2.2 = anc :=
  ⟨rfl, rfl, rfl, rfl, rfl⟩

/-- C4 (counterexample): calling a reachable `Detail` node (reached by
`client.profile(p).loop(l).detail`) with an id value produces a node
whose `_id_value` is set while its `ID_FIELD` is `None`, violating the
claimed invariant. -/
theorem detail_bound_without_idField_cex :
    ((callNode detailNode
        [loopNode (some "l1"), profileNode (some "p1"), clientNode]
        "x" 5).2.1).idValue = some "x" ∧
    ((callNode detailNode
        [loopNode (some "l1"), profileNode (some "p1"), clientNode]
        "x" 5).2.1).idField = none :=
  ⟨rfl, rfl⟩

/-- C4 (amended): `__call__` sets the bound identifier unconditionally,
so a node of a resource type declaring no identifier field (such as
`Detail`) CAN carry a bound identifier; such a bound value is inert —
the node contributes no entry to `collect_ids`. -/
theorem callNode_binds_without_idField (cls : String) (idv0 : Option String)
    (sess fresh : Nat) (anc : List NodeData) (v : String) :
    (callNode ⟨cls, none, idv0, sess⟩ anc v fresh).2.1.idValue = some v ∧
    (callNode ⟨cls, none, idv0, sess⟩ anc v fresh).2.1.idField = none ∧
    collectIds ((callNode ⟨cls, none, idv0, sess⟩ anc v fresh).2.1 :: anc) =
      collectIds anc := by
  refine ⟨rfl, rfl, ?_⟩
  show collectIdsAux
    (match boundField ((callNode ⟨cls, none, idv0, sess⟩ anc v fresh).2.1) with
      | some (f, v) => dictInsert [] f v
      | none => []) anc = collectIdsAux [] anc
  rw [boundField_of_idField_none _ rfl]

/-- C10: `Folder.post`, with or without a bound identifier, hits the
registry lookup with the triple ("Folder", "post", has_id) for which
no row exists, so it ends in the re-raised `KeyError` after zero
transport calls — `Folder.post` can never issue an HTTP request. -/
theorem folderPost_always_keyError (idv : Option String) (sess : Nat)
    (anc : List NodeData) (t : Nat → HttpOutcome) :
    folderPost ⟨"Folder", some "folder_id", idv, sess⟩ anc t =
      ⟨.keyError (noEndpointMsg "Folder" "post" idv.isSome), 0, 0⟩ := by
  cases idv <;> rfl

/-- C2 (counterexample): a dispatch whose first transport call returns
401 and whose second would succeed does NOT refresh and retry — it
performs zero refreshes and exactly one transport call, returning the
normalized 401 error dict instead of the success the claim promises. -/
theorem fetch_401_refresh_retry_cex :
    (dotloopFetch (profileNode (some "p1")) [clientNode] "get"
      t401then200).refreshCalls = 0 ∧
    (dotloopFetch (profileNode (some "p1")) [clientNode] "get"
      t401then200).httpCalls = 1 ∧
    (dotloopFetch (profileNode (some "p1")) [clientNode] "get"
      t401then200).outcome ≠ FetchOutcome.ok (.success "fresh-data") := by
  refine ⟨rfl, rfl, ?_⟩
  rw [show (dotloopFetch (profileNode (some "p1")) [clientNode] "get"
        t401then200).outcome =
      FetchOutcome.ok (.errorDict "RequestException"
        (httpErrorMessage 401 (urljoinV2 baseUrl "profile/p1")) (some 401))
    from rfl]
  decide

/-- C2 (amended): `DotloopObject.fetch` performs no token refresh and
no retry: every dispatch makes zero refresh calls and at most one
transport call, and when the single call returns a 401 the dispatch
returns the normalized `RequestException` error dict with status 401
(the first auth failure is already terminal). -/
theorem fetch_no_reactive_refresh (self : NodeData) (anc : List NodeData)
    (method : String) (t : Nat → HttpOutcome) :
    (dotloopFetch self anc method t).refreshCalls = 0 ∧
    (dotloopFetch self anc method t).httpCalls ≤ 1 ∧
    (∀ (tmpl : List TSeg) (url content : String) (parsed : Except String String),
      endpointGet self.className method self.idValue.isSome = some tmpl →
      formatTemplate tmpl (collectIds (self :: anc)) = .ok url →
      allowedMethods.contains method = true →
      t 0 = .resp 401 content parsed →
      (dotloopFetch self anc method t).outcome =
        .ok (.errorDict "RequestException"
          (httpErrorMessage 401 (urljoinV2 baseUrl url)) (some 401))) := by
  refine ⟨?_, ?_, ?_⟩
  · unfold dotloopFetch
    repeat' split
    all_goals rfl
  · unfold dotloopFetch
    repeat' split
    all_goals simp
  · intro tmpl url content parsed he hf hm ht
    simp only [dotloopFetch, he, hf, hm, ht, if_true]
    norm_num

/-- Witness for C2 (amended): the 401-then-success transport, dispatched
through a bound profile node, yields zero refreshes and the normalized
401 error dict. -/
theorem fetch_no_reactive_refresh_witness :
    (dotloopFetch (profileNode (some "p1")) [clientNode] "get"
      t401then200).refreshCalls = 0 ∧
    (dotloopFetch (profileNode (some "p1")) [clientNode] "get"
      t401then200).outcome =
      .ok (.errorDict "RequestException"
        (httpErrorMessage 401 (urljoinV2 baseUrl "profile/p1")) (some 401)) :=
  ⟨(fetch_no_reactive_refresh (profileNode (some "p1")) [clientNode] "get"
      t401then200).1,
   (fetch_no_reactive_refresh (profileNode (some "p1")) [clientNode] "get"
      t401then200).2.2
     [.lit "profile/", .hole "profile_id"] "profile/p1" "unauthorized"
     (.error "Expecting value") rfl rfl rfl rfl⟩

/-- C8: for a (class, verb, has-identifier) triple with no registry
row, `fetch` ends in the re-raised lookup `KeyError` — after zero
transport calls — and likewise ends in the re-raised format `KeyError`
for an unresolved template placeholder; neither is the `ok` outcome
used for normalized HTTP failures, so both are distinguishable from a
normal 404 error-dict result. -/
theorem fetch_endpoint_keyError_propagates :
    (∀ (self : NodeData) (anc : List NodeData) (method : String)
        (t : Nat → HttpOutcome),
      endpointGet self.className method self.idValue.isSome = none →
      dotloopFetch self anc method t =
        ⟨.keyError (noEndpointMsg self.className method self.idValue.isSome),
          0, 0⟩) ∧
    (∀ (self : NodeData) (anc : List NodeData) (method : String)
        (t : Nat → HttpOutcome) (tmpl : List TSeg) (name : String),
      endpointGet self.className method self.idValue.isSome = some tmpl →
      formatTemplate tmpl (collectIds (self :: anc)) = .error name →
      dotloopFetch self anc method t = ⟨.formatKeyError name, 0, 0⟩) ∧
    (∀ (msg : String) (r : FetchResult), FetchOutcome.keyError msg ≠ .ok r) ∧
    (∀ (name : String) (r : FetchResult),
      FetchOutcome.formatKeyError name ≠ .ok r) := by
  refine ⟨?_, ?_, ?_, ?_⟩
  · intro self anc method t he
    simp only [dotloopFetch, he]
  · intro self anc method t tmpl name he hf
    simp only [dotloopFetch, he, hf]
  · intro msg r h
    exact FetchOutcome.noConfusion h
  · intro name r h
    exact FetchOutcome.noConfusion h

/-- Witness for C8: `Folder.post`-style lookup (no ("Folder", "post", _)
row) hits the lookup `KeyError`; a bound `Loop` node with no profile
ancestor hits the format `KeyError` on the `profile_id` placeholder. -/
theorem fetch_endpoint_keyError_witness :
    dotloopFetch (folderNode none)
      [loopNode (some "l1"), profileNode (some "p1"), clientNode] "post"
      t401then200 =
      ⟨.keyError (noEndpointMsg "Folder" "post" false), 0, 0⟩ ∧
    dotloopFetch (loopNode (some "l1")) [] "get" t401then200 =
      ⟨.formatKeyError "profile_id", 0, 0⟩ :=
  ⟨fetch_endpoint_keyError_propagates.1 (folderNode none)
     [loopNode (some "l1"), profileNode (some "p1"), clientNode] "post"
     t401then200 rfl,
   fetch_endpoint_keyError_propagates.2.1 (loopNode (some "l1")) [] "get"
     t401then200
     [.lit "profile/", .hole "profile_id", .lit "/loop/", .hole "loop_id"]
     "profile_id" rfl rfl⟩

/-- C9: when the transport succeeds (status below 400) but the body is
not valid JSON, `fetch` returns the normalized error dict of the
distinct kind "JSONDecodeError", carrying `str(e)` followed by the raw
response payload and the status code — the decode exception itself is
caught, not leaked. -/
theorem fetch_jsonDecodeError_normalized (self : NodeData)
    (anc : List NodeData) (method : String) (t : Nat → HttpOutcome)
    (tmpl : List TSeg) (url content err : String) (status : Nat)
    (he : endpointGet self.className method self.idValue.isSome = some tmpl)
    (hf : formatTemplate tmpl (collectIds (self :: anc)) = .ok url)
    (hm : allowedMethods.contains method = true)
    (ht : t 0 = .resp status content (.error err))
    (hst : status < 400) :
    (dotloopFetch self anc method t).outcome =
      .ok (.errorDict "JSONDecodeError" (err ++ ": " ++ content)
        (some status)) ∧
    "JSONDecodeError" ≠ "RequestException" := by
  constructor
  · have hcond : ¬ (400 ≤ status ∧ status < 600) := by omega
    simp only [dotloopFetch, he, hf, hm, ht, hcond, if_true, if_false]
  · decide

/-- Witness for C9: an account fetch whose 200 response body fails JSON
decoding yields the JSONDecodeError dict holding the raw payload and
status. -/
theorem fetch_jsonDecodeError_witness :
    (dotloopFetch accountNode [clientNode] "get"
      (fun _ => .resp 200 "not json" (.error "Expecting value"))).outcome =
      .ok (.errorDict "JSONDecodeError" ("Expecting value" ++ ": " ++ "not json")
        (some 200)) :=
  (fetch_jsonDecodeError_normalized accountNode [clientNode] "get"
    (fun _ => .resp 200 "not json" (.error "Expecting value"))
    [.lit "account"] "account" "not json" "Expecting value" 200
    rfl rfl rfl rfl (by omega)).1

theorem expectedReqs_length (b m n : Nat) :
    (expectedReqs b m n).length = n + 1 := by
  induction n generalizing b with
  | zero => rfl
  | succ n ih => simp [expectedReqs, ih]

/-- C5: a `Profile.get_all(batch_size=100)` run whose transport returns
pages of sizes [100, 100, 37], the first carrying `meta.total = 237`,
yields exactly the 237 items in page order and issues exactly three
requests, touching nothing in the script past the third page. -/
theorem profileGetAll_total_237 (a b c : List String) (tb tc : Option Nat)
    (extra : List Page)
    (ha : a.length = 100) (hb : b.length = 100) (hc : c.length = 37) :
    profileGetAll 100 ([⟨a, some 237⟩, ⟨b, tb⟩, ⟨c, tc⟩] ++ extra) =
      some (a ++ b ++ c, [(1, 100), (2, 100), (3, 100)]) ∧
    (a ++ b ++ c).length = 237 := by
  constructor
  · simp [profileGetAll, profileGetAllAux, pageCond, ha, hb, hc]
  · simp [ha, hb, hc]

/-- Witness for C5 at concrete pages of the demanded sizes. -/
theorem profileGetAll_total_237_witness :
    (List.replicate 100 "a").length = 100 ∧
    (List.replicate 37 "c").length = 37 ∧
    profileGetAll 100
      ([⟨List.replicate 100 "a", some 237⟩, ⟨List.replicate 100 "b", none⟩,
        ⟨List.replicate 37 "c", none⟩] ++ []) =
      some (List.replicate 100 "a" ++ List.replicate 100 "b" ++
        List.replicate 37 "c", [(1, 100), (2, 100), (3, 100)]) :=
  ⟨by simp, by simp,
   (profileGetAll_total_237 (List.replicate 100 "a") (List.replicate 100 "b")
     (List.replicate 37 "c") none none [] (by simp) (by simp) (by simp)).1⟩

theorem taskGetAllAux_short_stop (batchSize : Nat) (s : Page)
    (extra : List Page) (hss : s.data.length < batchSize) :
    ∀ (full : List Page), (∀ p ∈ full, p.total = none ∧ ¬ p.data.length < batchSize) →
    ∀ (fetched b : Nat),
      taskGetAllAux batchSize none fetched b (full ++ s :: extra) =
        some ((full.map Page.data).flatten ++ s.data,
          expectedReqs b (min batchSize 100) full.length) := by
  intro full
  induction full with
  | nil =>
    intro _ fetched b
    simp [taskGetAllAux, pageCond, hss, expectedReqs]
  | cons p rest ih =>
    intro hfull fetched b
    have hp := hfull p (by simp)
    have hrest : ∀ q ∈ rest, q.total = none ∧ ¬ q.data.length < batchSize :=
      fun q hq => hfull q (by simp [hq])
    simp only [List.cons_append, taskGetAllAux, pageCond, if_true]
    rw [hp.1]
    simp only [hp.2, if_false, List.append_eq]
    rw [ih hrest (fetched + p.data.length) (b + 1)]
    simp [expectedReqs, List.append_assoc]

/-- C6: a `Task.get_all` run whose transport never supplies
`meta.total` terminates at the first page shorter than the requested
batch size, yielding exactly the items of the pages up to and
including that short page, in order, with one request per page
consumed (`full.length + 1` requests in all). -/
theorem taskGetAll_short_page_stop (batchSize : Nat) (full : List Page)
    (s : Page) (extra : List Page)
    (hfull : ∀ p ∈ full, p.total = none ∧ ¬ p.data.length < batchSize)
    (hs : s.total = none) (hss : s.data.length < batchSize) :
    taskGetAll batchSize (full ++ s :: extra) =
      some ((full.map Page.data).flatten ++ s.data,
        expectedReqs 1 (min batchSize 100) full.length) ∧
    (expectedReqs 1 (min batchSize 100) full.length).length =
      full.length + 1 :=
  ⟨taskGetAllAux_short_stop batchSize s extra hss full hfull 0 1,
   expectedReqs_length _ _ _⟩

/-- Witness for C6: one full page of 2 items then a short page of 1,
batch size 2, no totals anywhere. -/
theorem taskGetAll_short_page_witness :
    taskGetAll 2 ([⟨["a", "a"], none⟩] ++ ⟨["b"], none⟩ :: []) =
      some ((([⟨["a", "a"], none⟩] : List Page).map Page.data).flatten ++ ["b"],
        expectedReqs 1 (min 2 100) 1) ∧
    (expectedReqs 1 (min 2 100) 1).length = 1 + 1 :=
  taskGetAll_short_page_stop 2 [⟨["a", "a"], none⟩] ⟨["b"], none⟩ []
    (by
      intro p hp
      simp only [List.mem_singleton] at hp
      subst hp
      exact ⟨rfl, by decide⟩)
    rfl (by decide)

theorem profileGetAllAux_clamp (batchSize : Nat) (pages : List Page) :
    ∀ (total? : Option Nat) (fetched b : Nat)
      (res : List String × List (Nat × Nat)),
      profileGetAllAux batchSize total? fetched b pages = some res →
      ∀ r ∈ res.2, r.2 = min batchSize 100 := by
  induction pages with
  | nil =>
    intro t f b res h r hr
    simp only [profileGetAllAux] at h
    split at h
    · exact Option.noConfusion h
    · injection h with h
      subst h
      simp at hr
  | cons p rest ih =>
    intro t f b res h r hr
    simp only [profileGetAllAux] at h
    split at h
    · split at h
      · injection h with h
        subst h
        simp at hr
        simp [hr]
      · split at h
        · exact Option.noConfusion h
        · rename_i items reqs heq
          injection h with h
          subst h
          simp at hr
          rcases hr with hr | hr
          · simp [hr]
          · exact ih _ _ _ _ heq r hr
    · injection h with h
      subst h
      simp at hr

theorem taskGetAllAux_clamp (batchSize : Nat) (pages : List Page) :
    ∀ (total? : Option Nat) (fetched b : Nat)
      (res : List String × List (Nat × Nat)),
      taskGetAllAux batchSize total? fetched b pages = some res →
      ∀ r ∈ res.2, r.2 = min batchSize 100 := by
  induction pages with
  | nil =>
    intro t f b res h r hr
    simp only [taskGetAllAux] at h
    split at h
    · exact Option.noConfusion h
    · injection h with h
      subst h
      simp at hr
  | cons p rest ih =>
    intro t f b res h r hr
    simp only [taskGetAllAux] at h
    split at h
    · split at h
      · injection h with h
        subst h
        simp at hr
        simp [hr]
      · split at h
        · exact Option.noConfusion h
        · rename_i items reqs heq
          injection h with h
          subst h
          simp at hr
          rcases hr with hr | hr
          · simp [hr]
          · exact ih _ _ _ _ heq r hr
    · injection h with h
      subst h
      simp at hr

theorem loopGetUpdatedSinceAux_clamp (batchSize : Nat) (filterParam : String)
    (pages : List Page) :
    ∀ (total? : Option Nat) (fetched b : Nat)
      (res : List String × List LoopPageReq),
      loopGetUpdatedSinceAux batchSize filterParam total? fetched b pages =
        some res →
      ∀ r ∈ res.2, r.batchSize = min batchSize 100 := by
  induction pages with
  | nil =>
    intro t f b res h r hr
    simp only [loopGetUpdatedSinceAux] at h
    split at h
    · exact Option.noConfusion h
    · injection h with h
      subst h
      simp at hr
  | cons p rest ih =>
    intro t f b res h r hr
    simp only [loopGetUpdatedSinceAux] at h
    split at h
    · split at h
      · injection h with h
        subst h
        simp at hr
        simp [hr]
      · split at h
        · exact Option.noConfusion h
        · rename_i items reqs heq
          injection h with h
          subst h
          simp at hr
          rcases hr with hr | hr
          · simp [hr]
          · exact ih _ _ _ _ heq r hr
    · injection h with h
      subst h
      simp at hr

/-- C7: in every pagination loop (`Profile.get_all`, `Task.get_all`,
`Loop.get_updated_since`), the batch size placed in the request
parameters is `min(batch_size, 100)`; in particular a requested batch
size of 500 is sent to the transport as 100 on every page request of
the run. -/
theorem pagination_batchSize_clamped :
    (∀ (pages : List Page) (res : List String × List (Nat × Nat)),
      profileGetAll 500 pages = some res → ∀ r ∈ res.2, r.2 = 100) ∧
    (∀ (pages : List Page) (res : List String × List (Nat × Nat)),
      taskGetAll 500 pages = some res → ∀ r ∈ res.2, r.2 = 100) ∧
    (∀ (d : String) (pages : List Page)
        (res : List String × List LoopPageReq),
      loopGetUpdatedSince d 500 pages = some res →
      ∀ r ∈ res.2, r.batchSize = 100) := by
  refine ⟨?_, ?_, ?_⟩
  · intro pages res h r hr
    simpa using profileGetAllAux_clamp 500 pages none 0 1 res h r hr
  · intro pages res h r hr
    simpa using taskGetAllAux_clamp 500 pages none 0 1 res h r hr
  · intro d pages res h r hr
    simpa using loopGetUpdatedSinceAux_clamp 500 ("updated_min=" ++ d) pages
      none 0 1 res h r hr

/-- Witness for C7: a requested batch size of 500 shows up as 100 in
the recorded request of a one-page run, for the profile and the
loop-updated-since generators. -/
theorem pagination_batchSize_clamped_witness :
    profileGetAll 500 [⟨[], none⟩] = some ([], [(1, 100)]) ∧
    ((1, 100) : Nat × Nat).2 = 100 ∧
    loopGetUpdatedSince "2024-01-01T00:00:00Z" 500 [⟨[], none⟩] =
      some ([], [⟨100, 1, "updated_min=2024-01-01T00:00:00Z"⟩]) ∧
    (⟨100, 1, "updated_min=2024-01-01T00:00:00Z"⟩ : LoopPageReq).batchSize =
      100 :=
  ⟨rfl,
   pagination_batchSize_clamped.1 [⟨[], none⟩] ([], [(1, 100)]) rfl
     (1, 100) (by simp),
   rfl,
   pagination_batchSize_clamped.2.2 "2024-01-01T00:00:00Z" [⟨[], none⟩]
     ([], [⟨100, 1, "updated_min=2024-01-01T00:00:00Z"⟩]) rfl
     ⟨100, 1, "updated_min=2024-01-01T00:00:00Z"⟩ (by simp)⟩
